import Mathlib

/-!
Verification development for the WebsenseBackend service.

The TypeScript service (`src/website-analysis/website-analysis.service.ts` and
`src/website-analysis/website-analysis.controller.ts`) is shallowly embedded
below.  Pure data-reshaping code is translated to Lean functions; the effectful
parts (subprocess execution, HTTP requests, the filesystem, the clock) are
modelled by passing their outcomes explicitly as arguments, and by returning
the list of external invocations or the final filesystem state alongside the
handler response where a claim is about those effects.
-/

namespace Websense

/-! ## JavaScript string primitives

`String.prototype.includes` / `startsWith` are modelled on character lists so
that all proofs reduce by computation. -/

/-- Boolean test that `p` is a prefix of `l` (JS `startsWith` on char lists). -/
def startsWithL : List Char → List Char → Bool
  | [], _ => true
  | _ :: _, [] => false
  | p :: ps, c :: cs => p == c && startsWithL ps cs

/-- Substring containment on char lists (JS `String.prototype.includes`). -/
def containsSubL : List Char → List Char → Bool
  | [], pat => pat.isEmpty
  | c :: cs, pat => startsWithL pat (c :: cs) || containsSubL cs pat

/-- JS `s.includes(pat)`. -/
def strContains (s pat : String) : Bool := containsSubL s.data pat.data

/-- JS `s.startsWith(pre)`. -/
def jsStartsWith (s pre : String) : Bool := startsWithL pre.data s.data

/-- JS `s.toLowerCase()` (on the character list, so that it computes inside
the kernel). -/
def jsToLower (s : String) : String := String.mk (s.data.map Char.toLower)

/-! ## JSON values for handler response bodies -/

/-- A JSON value, used to state properties of the JSON bodies the handlers
return.  Response bodies are association lists `List (String × JVal)`. -/
inductive JVal where
  | str (s : String)
  | num (n : Int)
  | bool (b : Bool)
  | null
  | arr (xs : List JVal)
  | obj (fields : List (String × JVal))
deriving BEq

/-! ## URL normalization

Embeds the inline `if (!url.startsWith('http://') && !url.startsWith('https://'))
url = 'https://' + url;` block that opens `runLighthouseAnalysis`,
`analyzeTechStack`, `analyzeSecurityHeaders`, `analyzeMobileFriendly` and
`analyzeCoreWebVitals` in the service. -/

/-- URL normalization shared by the five service handlers. -/
def normalizeUrl (url : String) : String :=
  if !(jsStartsWith url "http://") && !(jsStartsWith url "https://") then
    "https://" ++ url
  else url

/-- URL normalization of the controller's `testWebsite` handler:
`url.startsWith('http') ? url : "https://" + url` (note the bare `'http'`). -/
def testWebsiteUrl (url : String) : String :=
  if jsStartsWith url "http" then url else "https://" ++ url

/-! ## Technology categorization (`categorizeTechnology` and its keyword tables)

Transcribed from `website-analysis.service.ts` lines 850-1066.  Each `is*`
predicate is `keywords.some(k => name.includes(k) || category.includes(k))`
applied to the already-lowercased name and category. -/

def isFrontendTech (name category : String) : Bool :=
  ["react", "vue", "angular", "jquery", "bootstrap", "tailwind", "sass", "less",
   "webpack", "vite", "parcel", "gulp", "grunt", "typescript", "javascript",
   "html5", "css3", "pwa", "service worker", "web components"].any
    (fun keyword => strContains name keyword || strContains category keyword)

def isBackendTech (name category : String) : Bool :=
  ["node.js", "express", "django", "flask", "laravel", "spring", "asp.net",
   "php", "python", "java", "c#", "ruby", "rails", "fastapi", "koa",
   "hapi", "sails", "meteor", "strapi", "ghost"].any
    (fun keyword => strContains name keyword || strContains category keyword)

def isDatabase (name category : String) : Bool :=
  ["mysql", "postgresql", "mongodb", "redis", "sqlite", "mariadb",
   "oracle", "sql server", "dynamodb", "firebase", "supabase"].any
    (fun keyword => strContains name keyword || strContains category keyword)

def isProgrammingLanguage (name category : String) : Bool :=
  ["javascript", "typescript", "python", "php", "java", "c#", "ruby",
   "go", "rust", "swift", "kotlin", "scala", "elixir", "clojure"].any
    (fun keyword => strContains name keyword || strContains category keyword)

def isFramework (name category : String) : Bool :=
  ["react", "vue", "angular", "svelte", "next.js", "nuxt", "gatsby",
   "django", "flask", "express", "laravel", "spring", "asp.net",
   "rails", "fastapi", "koa", "hapi", "sails"].any
    (fun keyword => strContains name keyword || strContains category keyword)

def isLibrary (name category : String) : Bool :=
  ["jquery", "lodash", "moment", "axios", "fetch", "socket.io",
   "three.js", "d3", "chart.js", "fabric", "konva"].any
    (fun keyword => strContains name keyword || strContains category keyword)

def isCMS (name category : String) : Bool :=
  ["wordpress", "drupal", "joomla", "magento", "shopify", "squarespace",
   "wix", "webflow", "ghost", "strapi", "contentful", "sanity"].any
    (fun keyword => strContains name keyword || strContains category keyword)

def isEcommerce (name category : String) : Bool :=
  ["shopify", "woocommerce", "magento", "prestashop", "opencart",
   "bigcommerce", "squarespace", "wix", "webflow", "stripe",
   "paypal", "razorpay", "razorpay", "square"].any
    (fun keyword => strContains name keyword || strContains category keyword)

def isAnalytics (name category : String) : Bool :=
  ["google analytics", "gtag", "ga", "hotjar", "segment", "mixpanel",
   "amplitude", "heap", "kissmetrics", "crazy egg", "optimizely",
   "google tag manager", "facebook pixel", "twitter pixel"].any
    (fun keyword => strContains name keyword || strContains category keyword)

def isWebServer (name category : String) : Bool :=
  ["apache", "nginx", "iis", "lighttpd", "caddy", "traefik"].any
    (fun keyword => strContains name keyword || strContains category keyword)

def isCDN (name category : String) : Bool :=
  ["cloudflare", "akamai", "fastly", "aws cloudfront", "azure cdn",
   "google cloud cdn", "bunny cdn", "keycdn", "stackpath"].any
    (fun keyword => strContains name keyword || strContains category keyword)

def isHosting (name category : String) : Bool :=
  ["aws", "amazon web services", "azure", "google cloud", "heroku",
   "digitalocean", "linode", "vultr", "netlify", "vercel", "firebase",
   "surge", "github pages", "gitlab pages"].any
    (fun keyword => strContains name keyword || strContains category keyword)

def isCloudService (name category : String) : Bool :=
  ["aws", "azure", "google cloud", "firebase", "supabase", "heroku",
   "vercel", "netlify", "digitalocean", "linode", "vultr"].any
    (fun keyword => strContains name keyword || strContains category keyword)

def isSecurity (name category : String) : Bool :=
  ["recaptcha", "ssl", "tls", "csp", "hsts", "xss protection",
   "csrf", "security headers", "cloudflare security", "sucuri",
   "incapsula", "akamai security"].any
    (fun keyword => strContains name keyword || strContains category keyword)

def isPaymentProcessor (name category : String) : Bool :=
  ["stripe", "paypal", "razorpay", "square", "adyen", "braintree",
   "worldpay", "sage", "quickbooks", "xero", "freshbooks"].any
    (fun keyword => strContains name keyword || strContains category keyword)

def isAdvertisingNetwork (name category : String) : Bool :=
  ["google ads", "facebook ads", "twitter ads", "linkedin ads",
   "amazon ads", "bing ads", "taboola", "outbrain", "adroll",
   "google adwords", "google adsense", "doubleclick"].any
    (fun keyword => strContains name keyword || strContains category keyword)

def isABTesting (name category : String) : Bool :=
  ["optimizely", "vwo", "google optimize", "ab tasty", "convert",
   "kissmetrics", "mixpanel", "amplitude", "hotjar", "crazy egg"].any
    (fun keyword => strContains name keyword || strContains category keyword)

/-- The category buckets a technology can be routed to by
`categorizeTechnology`, in the order the source tests them. -/
inductive TechBucket where
  | frontend | backend | databases | programmingLanguages | frameworks
  | libraries | cms | ecommerce | analytics | webServers | cdn | hosting
  | cloudServices | security | paymentProcessors | advertisingNetworks
  | abTesting
deriving DecidableEq

/-- Port of `categorizeTechnology` (lines 850-922): lowercase the name and
category, then walk the fixed if/else-if chain; the result is the bucket the
technology is pushed to (`none` when no predicate matches, in which case the
source pushes it nowhere). -/
def categorizeTechnology (rawName rawCategory : String) : Option TechBucket :=
  let name := (jsToLower rawName)
  let category := (jsToLower rawCategory)
  if isFrontendTech name category then some .frontend
  else if isBackendTech name category then some .backend
  else if isDatabase name category then some .databases
  else if isProgrammingLanguage name category then some .programmingLanguages
  else if isFramework name category then some .frameworks
  else if isLibrary name category then some .libraries
  else if isCMS name category then some .cms
  else if isEcommerce name category then some .ecommerce
  else if isAnalytics name category then some .analytics
  else if isWebServer name category then some .webServers
  else if isCDN name category then some .cdn
  else if isHosting name category then some .hosting
  else if isCloudService name category then some .cloudServices
  else if isSecurity name category then some .security
  else if isPaymentProcessor name category then some .paymentProcessors
  else if isAdvertisingNetwork name category then some .advertisingNetworks
  else if isABTesting name category then some .abTesting
  else none

/-- The fixed priority order of the buckets, as the spec lists them. -/
def techBucketOrder : List TechBucket :=
  [.frontend, .backend, .databases, .programmingLanguages, .frameworks,
   .libraries, .cms, .ecommerce, .analytics, .webServers, .cdn, .hosting,
   .cloudServices, .security, .paymentProcessors, .advertisingNetworks,
   .abTesting]

/-- Keyword-table membership test for one bucket, on the lowercased name and
category, dispatching to the source's per-bucket predicate. -/
def techBucketMatches (b : TechBucket) (rawName rawCategory : String) : Bool :=
  let name := (jsToLower rawName)
  let category := (jsToLower rawCategory)
  match b with
  | .frontend => isFrontendTech name category
  | .backend => isBackendTech name category
  | .databases => isDatabase name category
  | .programmingLanguages => isProgrammingLanguage name category
  | .frameworks => isFramework name category
  | .libraries => isLibrary name category
  | .cms => isCMS name category
  | .ecommerce => isEcommerce name category
  | .analytics => isAnalytics name category
  | .webServers => isWebServer name category
  | .cdn => isCDN name category
  | .hosting => isHosting name category
  | .cloudServices => isCloudService name category
  | .security => isSecurity name category
  | .paymentProcessors => isPaymentProcessor name category
  | .advertisingNetworks => isAdvertisingNetwork name category
  | .abTesting => isABTesting name category

/-- Helper: an if/else-if chain over seventeen Booleans equals `List.find?`
over `techBucketOrder` with the corresponding dispatch function. -/
lemma find?_bucket_chain
    (b1 b2 b3 b4 b5 b6 b7 b8 b9 b10 b11 b12 b13 b14 b15 b16 b17 : Bool) :
    (if b1 then some TechBucket.frontend
     else if b2 then some TechBucket.backend
     else if b3 then some TechBucket.databases
     else if b4 then some TechBucket.programmingLanguages
     else if b5 then some TechBucket.frameworks
     else if b6 then some TechBucket.libraries
     else if b7 then some TechBucket.cms
     else if b8 then some TechBucket.ecommerce
     else if b9 then some TechBucket.analytics
     else if b10 then some TechBucket.webServers
     else if b11 then some TechBucket.cdn
     else if b12 then some TechBucket.hosting
     else if b13 then some TechBucket.cloudServices
     else if b14 then some TechBucket.security
     else if b15 then some TechBucket.paymentProcessors
     else if b16 then some TechBucket.advertisingNetworks
     else if b17 then some TechBucket.abTesting
     else none) =
    List.find? (fun b => match b with
      | .frontend => b1
      | .backend => b2
      | .databases => b3
      | .programmingLanguages => b4
      | .frameworks => b5
      | .libraries => b6
      | .cms => b7
      | .ecommerce => b8
      | .analytics => b9
      | .webServers => b10
      | .cdn => b11
      | .hosting => b12
      | .cloudServices => b13
      | .security => b14
      | .paymentProcessors => b15
      | .advertisingNetworks => b16
      | .abTesting => b17) techBucketOrder := by
  cases b1 with
  | true => rfl
  | false => cases b2 with
    | true => rfl
    | false => cases b3 with
      | true => rfl
      | false => cases b4 with
        | true => rfl
        | false => cases b5 with
          | true => rfl
          | false => cases b6 with
            | true => rfl
            | false => cases b7 with
              | true => rfl
              | false => cases b8 with
                | true => rfl
                | false => cases b9 with
                  | true => rfl
                  | false => cases b10 with
                    | true => rfl
                    | false => cases b11 with
                      | true => rfl
                      | false => cases b12 with
                        | true => rfl
                        | false => cases b13 with
                          | true => rfl
                          | false => cases b14 with
                            | true => rfl
                            | false => cases b15 with
                              | true => rfl
                              | false => cases b16 with
                                | true => rfl
                                | false => cases b17 with
                                  | true => rfl
                                  | false => rfl

/-- C7: a detected technology is placed into a bucket if and only if its
lowercased name or category contains a keyword of that bucket's table, the
bucket being the first match in the fixed priority order (so each technology
lands in at most one bucket — the function returns at most one bucket). -/
theorem categorizeTechnology_eq_first_match (rawName rawCategory : String) :
    categorizeTechnology rawName rawCategory =
      techBucketOrder.find? (fun b => techBucketMatches b rawName rawCategory) :=
  find?_bucket_chain
    (isFrontendTech (jsToLower rawName) (jsToLower rawCategory))
    (isBackendTech (jsToLower rawName) (jsToLower rawCategory))
    (isDatabase (jsToLower rawName) (jsToLower rawCategory))
    (isProgrammingLanguage (jsToLower rawName) (jsToLower rawCategory))
    (isFramework (jsToLower rawName) (jsToLower rawCategory))
    (isLibrary (jsToLower rawName) (jsToLower rawCategory))
    (isCMS (jsToLower rawName) (jsToLower rawCategory))
    (isEcommerce (jsToLower rawName) (jsToLower rawCategory))
    (isAnalytics (jsToLower rawName) (jsToLower rawCategory))
    (isWebServer (jsToLower rawName) (jsToLower rawCategory))
    (isCDN (jsToLower rawName) (jsToLower rawCategory))
    (isHosting (jsToLower rawName) (jsToLower rawCategory))
    (isCloudService (jsToLower rawName) (jsToLower rawCategory))
    (isSecurity (jsToLower rawName) (jsToLower rawCategory))
    (isPaymentProcessor (jsToLower rawName) (jsToLower rawCategory))
    (isAdvertisingNetwork (jsToLower rawName) (jsToLower rawCategory))
    (isABTesting (jsToLower rawName) (jsToLower rawCategory))

/-! ## Environment configuration (`src/config/configuration.ts`)

`parseInt(s, 10)` is modelled for the decimal strings the configuration uses:
leading decimal digits are parsed; a string with no leading digit yields `none`
(JS `NaN`). -/

/-- Leading-decimal-digit parse, the behaviour of `parseInt(s, 10)` on the
digit-led strings used by the configuration (`none` models `NaN`). -/
def parseIntDec (s : String) : Option Nat :=
  let ds := s.data.takeWhile Char.isDigit
  if ds.isEmpty then none
  else some (ds.foldl (fun acc c => 10 * acc + (c.toNat - 48)) 0)

/-- JS `process.env.X || 'default'`: an unset or empty environment variable
falls back to the default string. -/
def jsEnvOr (v : Option String) (d : String) : String :=
  match v with
  | some s => if s == "" then d else s
  | none => d

structure LighthouseConfig where
  timeout : Option Nat
  chromeFlags : String
deriving DecidableEq

structure AppConfig where
  port : Option Nat
  frontendUrl : String
  environment : String
  lighthouse : LighthouseConfig
deriving DecidableEq

/-- Port of the default export of `src/config/configuration.ts`; `env` is the
process environment. -/
def configuration (env : String → Option String) : AppConfig :=
  { port := parseIntDec (jsEnvOr (env "PORT") "3001")
    frontendUrl := jsEnvOr (env "FRONTEND_URL") "http://localhost:3000"
    environment := jsEnvOr (env "NODE_ENV") "development"
    lighthouse :=
      { timeout := parseIntDec (jsEnvOr (env "LIGHTHOUSE_TIMEOUT") "60000")
        chromeFlags := jsEnvOr (env "LIGHTHOUSE_CHROME_FLAGS")
          "--headless --no-sandbox --disable-gpu --disable-dev-shm-usage" } }

/-! ## Lighthouse CLI command strings (service lines 51-54 and 89) -/

/-- Service line 52: `const quotedUrl = `"${url}"`;`. -/
def quotedUrl (url : String) : String := "\"" ++ url ++ "\""

/-- JS `reportPath.replace(/"/g, '\\"')`: escape every double quote. -/
def escapeQuotes (p : String) : String :=
  String.mk ((p.data.map fun c => if c = '"' then ['\\', '"'] else [c]).flatten)

/-- Service line 53: the report path with embedded quotes escaped, wrapped in
quotes. -/
def quotedReportPath (p : String) : String :=
  "\"" ++ escapeQuotes p ++ "\""

/-- The primary Lighthouse command template (service line 54).  The timeout
flag is the hard-coded literal `--timeout=60000`; the configured
`lighthouse.timeout` value is not consulted. -/
def lighthouseCommand (qUrl qPath : String) : String :=
  "npx lighthouse " ++ qUrl ++ " --output=json --output-path=" ++ qPath ++
    " --chrome-flags=\"--headless --no-sandbox --disable-gpu --disable-dev-shm-usage\" --timeout=60000 --preset=desktop --only-categories=performance,accessibility,best-practices,seo,pwa --max-wait-for-load=30000 --throttling-method=devtools"

/-- The fallback Lighthouse command template (service line 89), attempted when
the primary command fails with a timeout / connection-refused error. -/
def altLighthouseCommand (qUrl qPath : String) : String :=
  "npx lighthouse " ++ qUrl ++ " --output=json --output-path=" ++ qPath ++
    " --chrome-flags=\"--headless --no-sandbox\" --timeout=30000 --preset=desktop"

/-- Helper: substring containment is preserved by prepending on char lists. -/
lemma containsSubL_append_right (a : List Char) {b pat : List Char}
    (h : containsSubL b pat = true) : containsSubL (a ++ b) pat = true := by
  induction a with
  | nil => simpa using h
  | cons c cs ih =>
    show (startsWithL pat (c :: (cs ++ b)) || containsSubL (cs ++ b) pat) = true
    rw [ih]
    exact Bool.or_true _

/-- Helper: substring containment is preserved by prepending on strings. -/
lemma strContains_append_right (a : String) {b pat : String}
    (h : strContains b pat = true) : strContains (a ++ b) pat = true := by
  show containsSubL (a ++ b).data pat.data = true
  rw [String.data_append]
  exact containsSubL_append_right a.data h

/-! ## Lighthouse report data model

Only the fields the embedded code reads are modelled.  A JS property that may
be missing, non-string, or a string is a `JData`; `.absent` also covers the
falsy values (`null`, `undefined`, `''`, `0`) that fail a truthiness guard. -/

/-- A JS value read through a truthiness guard followed by a
`typeof x === 'string'` test. -/
inductive JData where
  | absent
  | nonString
  | str (s : String)
deriving DecidableEq

/-- An entry of `reportData.screenshots`. -/
structure RawScreenshot where
  data : JData
  timestamp : Option Nat
  width : Option Nat
  height : Option Nat
deriving DecidableEq

/-- The `screenshot` object of a filmstrip frame. -/
structure FilmShot where
  data : JData
  width : Option Nat
  height : Option Nat
deriving DecidableEq

/-- An entry of `reportData.filmstrip`. -/
structure FilmstripFrame where
  screenshot : Option FilmShot
  timestamp : Option Nat
deriving DecidableEq

/-- The `details` object of the `final-screenshot` audit. -/
structure FinalShot where
  data : JData
  width : Option Nat
  height : Option Nat
deriving DecidableEq

/-- A parsed Lighthouse report, restricted to the fields the service reads.
The `*Numeric` fields are the raw `numericValue`s of the corresponding audits
(`none` when the audit or its `numericValue` is missing);
`mainthreadFirstDuration` is `audits['mainthread-work-breakdown']
.details.items[0].duration`. -/
structure LhReport where
  runtimeError : Option (Option String)
  hasAudits : Bool
  finalScreenshot : Option FinalShot
  screenshots : List RawScreenshot
  filmstrip : List FilmstripFrame
  categories : Option (List (String × Option Int))
  fcpNumeric : Option Nat
  lcpNumeric : Option Nat
  siNumeric : Option Nat
  ttiNumeric : Option Nat
  fmpNumeric : Option Nat
  mainthreadFirstDuration : Option Nat
deriving DecidableEq

/-! ## Screenshot extraction (`extractScreenshots`, service lines 532-748)

The routine reads the wall clock (`Date.now()`, line 626) when a final
screenshot is present, so the model takes the current time `now` as an
argument. -/

/-- JS `v || d` for numbers: `0`, `null` and `undefined` fall back to `d`. -/
def jsOr0 (v : Option Nat) (d : Nat) : Nat :=
  match v with
  | some 0 => d
  | some n => n
  | none => d

/-- JS `v || null` for numbers: `0` collapses to `null`. -/
def jsOrNull (v : Option Nat) : Option Nat :=
  match v with
  | some 0 => none
  | some n => some n
  | none => none

/-- JS `(n / 1000).toFixed(1)` for a non-negative millisecond count. -/
def toFixed1 (n : Nat) : String :=
  let d := (n + 50) / 100
  toString (d / 10) ++ "." ++ toString (d % 10)

/-- Strips a `data:image/...;base64,` prefix: JS
`base64Data.split(',')[1]` when the string starts with `data:image/`
(`none` models `undefined` when there is no comma). -/
def stripDataUrl (s : String) : Option String :=
  if jsStartsWith s "data:image/" then (s.splitOn ",").get? 1 else some s

/-- The `id` of an extracted screenshot: a numeric index, or the strings
`filmstrip-i` / `final`. -/
inductive ScreenId where
  | num (n : Nat)
  | str (s : String)
deriving DecidableEq

/-- The metrics object built by `getPerformanceMetricsForTimeline`. -/
structure TimelineMetrics where
  firstContentfulPaint : Option Nat
  largestContentfulPaint : Option Nat
  speedIndex : Option Nat
  timeToInteractive : Option Nat
  firstMeaningfulPaint : Option Nat
  domContentLoaded : Option Nat
deriving DecidableEq

/-- A screenshot entry pushed by `extractScreenshots`.  `timelineContext` is
only set by the single-screenshot enhancement. -/
structure OutShot where
  id : ScreenId
  timestamp : Nat
  data : String
  width : Nat
  height : Nat
  description : String
  phase : String
  timelineContext : Option TimelineMetrics := none
deriving DecidableEq

/-- Port of `getLoadingPhase` (lines 688-694). -/
def getLoadingPhase (timestamp : Nat) (_index : Nat) : String :=
  if timestamp < 1000 then "initial"
  else if timestamp < 3000 then "early"
  else if timestamp < 8000 then "loading"
  else if timestamp < 15000 then "late"
  else "complete"

/-- The entries pushed from `reportData.screenshots` (lines 540-578). -/
def shotsFromScreenshots (shots : List RawScreenshot) : List OutShot :=
  shots.enum.filterMap (fun p =>
    match p.2.data with
    | .str s =>
      if s.isEmpty then none
      else
        match stripDataUrl s with
        | some d =>
          if !d.isEmpty then
            let ts := jsOr0 p.2.timestamp (p.1 * 1000)
            some { id := .num p.1, timestamp := ts, data := d,
                   width := jsOr0 p.2.width 1200, height := jsOr0 p.2.height 800,
                   description := "Loading at " ++ toFixed1 ts ++ "s",
                   phase := getLoadingPhase ts p.1 }
          else none
        | none => none
    | _ => none)

/-- The entries pushed from `reportData.filmstrip` (lines 581-612). -/
def shotsFromFilmstrip (frames : List FilmstripFrame) : List OutShot :=
  frames.enum.filterMap (fun p =>
    match p.2.screenshot with
    | some sh =>
      match sh.data with
      | .str s =>
        if s.isEmpty then none
        else
          match stripDataUrl s with
          | some d =>
            if !d.isEmpty then
              let ts := jsOr0 p.2.timestamp (p.1 * 1000)
              some { id := .str ("filmstrip-" ++ toString p.1), timestamp := ts,
                     data := d, width := jsOr0 sh.width 1200,
                     height := jsOr0 sh.height 800,
                     description := "Filmstrip at " ++ toFixed1 ts ++ "s",
                     phase := getLoadingPhase ts p.1 }
            else none
          | none => none
      | _ => none
    | none => none)

/-- The entry pushed from the `final-screenshot` audit (lines 614-642); its
`timestamp` is `Date.now()`, passed in as `now`. -/
def finalEntries (r : LhReport) (now : Nat) : List OutShot :=
  if r.hasAudits then
    match r.finalScreenshot with
    | some fs =>
      match fs.data with
      | .str s =>
        if s.isEmpty then []
        else
          match stripDataUrl s with
          | some d =>
            if !d.isEmpty then
              [{ id := .str "final", timestamp := now, data := d,
                 width := jsOr0 fs.width 1200, height := jsOr0 fs.height 800,
                 description := "Final loaded page", phase := "complete" }]
            else []
          | none => []
      | _ => []
    | none => []
  else []

/-- Stable insertion into a timestamp-sorted list (the JS
`sort((a, b) => a.timestamp - b.timestamp)` is a stable ascending sort). -/
def insertByTs (x : OutShot) : List OutShot → List OutShot
  | [] => [x]
  | y :: ys => if x.timestamp ≤ y.timestamp then x :: y :: ys else y :: insertByTs x ys

/-- Stable sort by timestamp. -/
def sortByTs : List OutShot → List OutShot
  | [] => []
  | x :: xs => insertByTs x (sortByTs xs)

/-- Recursion of `removeDuplicateScreenshots`: drop entries whose
`Math.round(timestamp / 100)` key was already seen. -/
def removeDupGo (seen : List Nat) : List OutShot → List OutShot
  | [] => []
  | s :: rest =>
    let key := (s.timestamp + 50) / 100
    if seen.contains key then removeDupGo seen rest
    else s :: removeDupGo (key :: seen) rest

/-- Port of `removeDuplicateScreenshots` (lines 697-707). -/
def removeDuplicateScreenshots (shots : List OutShot) : List OutShot :=
  removeDupGo [] shots

/-- Port of `getPerformanceMetricsForTimeline` (lines 710-720). -/
def getPerformanceMetricsForTimeline (r : LhReport) : TimelineMetrics :=
  { firstContentfulPaint := jsOrNull r.fcpNumeric
    largestContentfulPaint := jsOrNull r.lcpNumeric
    speedIndex := jsOrNull r.siNumeric
    timeToInteractive := jsOrNull r.ttiNumeric
    firstMeaningfulPaint := jsOrNull r.fmpNumeric
    domContentLoaded := jsOrNull r.mainthreadFirstDuration }

/-- JS `metrics.m && shot.timestamp >= metrics.m` for an already
null-normalized metric. -/
def tmTruthyGe (v : Option Nat) (ts : Nat) : Bool :=
  match v with
  | some x => decide (ts ≥ x)
  | none => false

/-- Port of `getEnhancedDescription` (lines 723-735). -/
def getEnhancedDescription (shot : OutShot) (m : TimelineMetrics) : String :=
  if tmTruthyGe m.firstContentfulPaint shot.timestamp then
    if tmTruthyGe m.largestContentfulPaint shot.timestamp then
      "Fully loaded page (post-LCP)"
    else if tmTruthyGe m.speedIndex shot.timestamp then
      "Page mostly loaded (post-Speed Index)"
    else "Content visible (post-FCP)"
  else "Initial page load state"

/-- Port of `determinePhaseFromMetrics` (lines 738-748). -/
def determinePhaseFromMetrics (m : TimelineMetrics) : String :=
  if m.timeToInteractive.isSome && m.largestContentfulPaint.isSome then "complete"
  else if m.largestContentfulPaint.isSome then "late"
  else if m.firstContentfulPaint.isSome then "loading"
  else "initial"

/-- Port of `extractScreenshots` (lines 532-685): collect entries from the
three sources, sort by timestamp, drop near-duplicate timestamps, and enhance
a lone screenshot with timeline context.  `now` is the value of `Date.now()`
at line 626. -/
def extractScreenshots (r : LhReport) (now : Nat) : List OutShot :=
  let collected :=
    shotsFromScreenshots r.screenshots ++ shotsFromFilmstrip r.filmstrip ++
      finalEntries r now
  let unique := removeDuplicateScreenshots (sortByTs collected)
  match unique with
  | [s] =>
    let m := getPerformanceMetricsForTimeline r
    [{ s with description := getEnhancedDescription s m,
               phase := determinePhaseFromMetrics m,
               timelineContext := some m }]
  | l => l

/-- Helper: whether the `final-screenshot` audit contributes an entry does not
depend on the clock, so if it contributes nothing at time 0 it contributes
nothing at any time. -/
lemma finalEntries_empty_all {r : LhReport} (h : finalEntries r 0 = [])
    (t : Nat) : finalEntries r t = [] := by
  unfold finalEntries at h ⊢
  by_cases ha : r.hasAudits
  · rw [if_pos ha] at h ⊢
    cases hfs : r.finalScreenshot with
    | none => rfl
    | some fs =>
      rw [hfs] at h
      obtain ⟨d, w, hgt⟩ := fs
      cases d with
      | absent => rfl
      | nonString => rfl
      | str s =>
        dsimp only at h ⊢
        by_cases hs : s.isEmpty
        · rw [if_pos hs]
        · rw [if_neg hs] at h ⊢
          cases hst : stripDataUrl s with
          | none => rfl
          | some dd =>
            rw [hst] at h
            dsimp only at h ⊢
            by_cases hde : !dd.isEmpty
            · rw [if_pos hde] at h
              exact absurd h (by simp)
            · rw [if_neg hde]
  · rw [if_neg ha] at h ⊢

/-- A report whose only screenshot source is the `final-screenshot` audit;
its extracted entry carries `Date.now()` as its timestamp. -/
def clockReport : LhReport :=
  { runtimeError := none
    hasAudits := true
    finalScreenshot := some { data := .str "iVBORw0KGgoAAAANSUh", width := some 1000, height := some 700 }
    screenshots := []
    filmstrip := []
    categories := some [("performance", some 1)]
    fcpNumeric := none
    lcpNumeric := none
    siNumeric := none
    ttiNumeric := none
    fmpNumeric := none
    mainthreadFirstDuration := none }

/-- C4 counterexample: `extractScreenshots` is not deterministic across runs.
On a report containing a final screenshot, the extracted entry embeds the
current value of `Date.now()`, so two runs of the routine on the same report
at different times produce different outputs. -/
theorem extractScreenshots_clock_dependent :
    extractScreenshots clockReport 1000 ≠ extractScreenshots clockReport 2000 := by
  decide

/-- C4 (amended): `extractScreenshots` is deterministic on every report whose
`final-screenshot` audit contributes no entry (only that branch reads the
clock): for every such report, two runs at arbitrary times produce identical
output. -/
theorem extractScreenshots_deterministic_without_final
    (r : LhReport) (h : finalEntries r 0 = []) (t₁ t₂ : Nat) :
    extractScreenshots r t₁ = extractScreenshots r t₂ := by
  unfold extractScreenshots
  rw [finalEntries_empty_all h t₁, finalEntries_empty_all h t₂]

/-- A report with one plain screenshot entry and no final screenshot, used to
witness the amended determinism theorem. -/
def plainReport : LhReport :=
  { runtimeError := none
    hasAudits := true
    finalScreenshot := none
    screenshots := [{ data := .str "AAAABBBB", timestamp := some 1500, width := none, height := none }]
    filmstrip := []
    categories := some [("performance", some 1)]
    fcpNumeric := some 1200
    lcpNumeric := none
    siNumeric := none
    ttiNumeric := none
    fmpNumeric := none
    mainthreadFirstDuration := none }

/-- Witness for the amended C4 theorem at a concrete report. -/
theorem extractScreenshots_deterministic_without_final_witness :
    finalEntries plainReport 0 = [] ∧
      extractScreenshots plainReport 3 = extractScreenshots plainReport 99999 :=
  ⟨by decide, extractScreenshots_deterministic_without_final plainReport (by decide) 3 99999⟩

/-! ## The Lighthouse handler (`runLighthouseAnalysis`, service lines 13-283)

The environment of one invocation is captured by `LhEnv`: the outcome of the
primary and fallback CLI executions, whether the report file exists on disk
after each execution, the outcome of `JSON.parse` on the report file, and
whether `fs.unlinkSync` succeeds.  The model returns the handler result
together with the final state of the report file (`true` = still on disk). -/

/-- The effectful environment of one `runLighthouseAnalysis` invocation. -/
structure LhEnv where
  primaryExec : Except String Unit
  fileAfterPrimary : Bool
  altExec : Except String Unit
  fileAfterAlt : Bool
  parse : Except String LhReport
  unlinkOk : Bool

/-- Outcome of the Lighthouse handler: an error JSON body, or a successfully
validated report (whose reshaping into the success body is the pure
extraction code modelled separately, e.g. `extractScreenshots`). -/
inductive LhResult where
  | errorBody (body : List (String × JVal))
  | ok (report : LhReport)

/-- The `{ url, error: true, message }` error-body shape every error return of
the Lighthouse handler uses. -/
def lhErrorBody (url msg : String) : List (String × JVal) :=
  [("url", .str url), ("error", .bool true), ("message", .str msg)]

/-- JS `v?.message || default`, the empty string also falling through. -/
def jsMsgOr (v : Option String) (d : String) : String :=
  match v with
  | some s => if s == "" then d else s
  | none => d

/-- The catch clause of `runLighthouseAnalysis` (lines 264-282): rewrite
well-known error messages and wrap the result in the uniform error body. -/
def lhCatch (url msg : String) : List (String × JVal) :=
  let errorMessage :=
    if strContains msg "ENOENT" then
      "Lighthouse CLI not found. Please ensure lighthouse is installed."
    else if strContains msg "timeout" then
      "Analysis timed out. The website may be too slow or unresponsive."
    else if strContains msg "ECONNREFUSED" then
      "Cannot connect to the website. Please check the URL and try again."
    else msg
  lhErrorBody url ("Failed to analyze website: " ++ errorMessage)

/-- The Chrome-interstitial check (lines 139-155): returns the early error
result when the final screenshot shows a Chrome error page; a non-string
`details.data` makes `screenshotData.includes` throw a `TypeError` that the
catch clause converts. -/
def lhInterstitial (url : String) (r : LhReport) : Option LhResult :=
  if r.hasAudits then
    match r.finalScreenshot with
    | some fs =>
      match fs.data with
      | .str s =>
        if s.isEmpty then none
        else if strContains s "chrome-error://" || strContains s "ERR_" ||
            strContains s "This site can\x27t be reached" then
          some (LhResult.errorBody (lhErrorBody url
            "Website appears to be down or inaccessible. Chrome is showing an error page instead of the website content."))
        else none
      | .nonString =>
        some (.errorBody (lhCatch url "screenshotData.includes is not a function"))
      | .absent => none
    | none => none
  else none

/-- The post-parse validation of the report (lines 129-263): runtime error,
Chrome interstitial, structural and score checks, in source order.  The file
state is unchanged by this phase. -/
def lhAfterParse (url : String) (r : LhReport) (fileState : Bool) :
    LhResult × Bool :=
  match r.runtimeError with
  | some m =>
    (.errorBody (lhErrorBody url (jsMsgOr m
      "Failed to analyze website. The site may be down or inaccessible.")), fileState)
  | none =>
    match lhInterstitial url r with
    | some res => (res, fileState)
    | none =>
      match r.categories with
      | none =>
        (.errorBody (lhErrorBody url
          "Analysis completed but returned invalid data structure."), fileState)
      | some cs =>
        if !r.hasAudits then
          (.errorBody (lhErrorBody url
            "Analysis completed but returned invalid data structure."), fileState)
        else if !(cs.any (fun c => c.2.isSome)) then
          (.errorBody (lhErrorBody url
            "Analysis completed but no valid scores were returned. The site may not be accessible."), fileState)
        else (.ok r, fileState)

/-- Reading, parsing and cleaning up the report file (lines 113-126): a parse
failure jumps to the catch clause with the file still on disk; on success the
file is unlinked (best effort) before validation. -/
def lhRunParse (url : String) (env : LhEnv) (fileNow : Bool) : LhResult × Bool :=
  match env.parse with
  | .error m => (.errorBody (lhCatch url m), fileNow)
  | .ok r =>
    let fileAfterUnlink := if env.unlinkOk then false else fileNow
    lhAfterParse url r fileAfterUnlink

/-- Port of `runLighthouseAnalysis` (lines 13-283): normalize the URL, run the
primary command, possibly the fallback command, then parse and validate the
report.  Returns the handler result and whether the report file still exists
when the handler returns. -/
def runLighthouseModel (url0 : String) (env : LhEnv) : LhResult × Bool :=
  let url := normalizeUrl url0
  match env.primaryExec with
  | .ok _ =>
    if !env.fileAfterPrimary then
      (.errorBody (lhCatch url "Lighthouse report file was not created"),
        env.fileAfterPrimary)
    else lhRunParse url env env.fileAfterPrimary
  | .error msg =>
    if strContains msg "timeout" || strContains msg "ECONNREFUSED" then
      match env.altExec with
      | .ok _ =>
        if env.fileAfterAlt then lhRunParse url env true
        else (.errorBody (lhCatch url msg), env.fileAfterAlt)
      | .error _ => (.errorBody (lhCatch url msg), env.fileAfterAlt)
    else if strContains msg "ENOENT" then
      (.errorBody (lhCatch url
        "Lighthouse CLI not found. Please ensure lighthouse is installed: npm install -g lighthouse"),
        env.fileAfterPrimary)
    else
      (.errorBody (lhCatch url ("Lighthouse execution failed: " ++ msg)),
        env.fileAfterPrimary)

/-! ## Security-headers analysis (`analyzeSecurityHeadersData`, lines 1137-1284)

The response header map is a function from header names to optional string
values; `none` models an absent header.  The source tests presence by JS
truthiness (`headers[k] || headers[K]`), so an empty-string value counts as
absent. -/

/-- JS string truthiness of an optional header value. -/
def truthyS : Option String → Bool
  | some s => !(s == "")
  | none => false

/-- JS `a || b` on optional header values. -/
def jsOrS (a b : Option String) : Option String :=
  if truthyS a then a else b

/-- Truthiness distributes over `||`. -/
lemma truthyS_jsOrS (a b : Option String) :
    truthyS (jsOrS a b) = (truthyS a || truthyS b) := by
  unfold jsOrS
  by_cases h : truthyS a
  · rw [if_pos h, h, Bool.true_or]
  · rw [if_neg h, Bool.eq_false_iff.mpr h, Bool.false_or]

/-- Per-header analysis record built by `analyzeSecurityHeadersData`. -/
structure SecHeaderInfo where
  present : Bool
  value : Option String
  status : String
  description : String
  recommendation : String

structure HttpsInfo where
  enabled : Bool
  status : String
  description : String

structure SecSummary where
  totalHeaders : Nat
  securityScore : Nat
  overallStatus : String
  recommendations : List String

structure SecAnalysis where
  https : HttpsInfo
  hsts : SecHeaderInfo
  csp : SecHeaderInfo
  xFrameOptions : SecHeaderInfo
  xContentTypeOptions : SecHeaderInfo
  referrerPolicy : SecHeaderInfo
  permissionsPolicy : SecHeaderInfo
  summary : SecSummary

/-- One `Check <header>` block of `analyzeSecurityHeadersData`: the record is
initialized as missing and overwritten when `headers[lower] || headers[upper]`
is truthy. -/
def mkHeaderCheck (headers : String → Option String)
    (lowerKey upperKey missingDesc missingRec presentDesc presentRec : String) :
    SecHeaderInfo :=
  let raw := jsOrS (headers lowerKey) (headers upperKey)
  if truthyS raw then
    { present := true, value := raw, status := "Present",
      description := presentDesc, recommendation := presentRec }
  else
    { present := false, value := none, status := "Missing",
      description := missingDesc, recommendation := missingRec }

/-- JS `Math.round(num / den)` for non-negative operands. -/
def jsMathRound (num den : Nat) : Nat := (2 * num + den) / (2 * den)

/-- Port of `analyzeSecurityHeadersData` (lines 1137-1284). -/
def analyzeSecurityHeadersData (headers : String → Option String)
    (isHttps : Bool) : SecAnalysis :=
  let hsts := mkHeaderCheck headers "strict-transport-security" "Strict-Transport-Security"
    "Strict-Transport-Security header not found"
    "Add HSTS header to prevent downgrade attacks"
    "HSTS header is configured" "HSTS is properly configured"
  let csp := mkHeaderCheck headers "content-security-policy" "Content-Security-Policy"
    "Content-Security-Policy header not found"
    "Add CSP header to prevent XSS attacks"
    "CSP header is configured" "CSP is properly configured"
  let xfo := mkHeaderCheck headers "x-frame-options" "X-Frame-Options"
    "X-Frame-Options header not found"
    "Add X-Frame-Options to prevent clickjacking"
    "X-Frame-Options header is configured" "X-Frame-Options is properly configured"
  let xcto := mkHeaderCheck headers "x-content-type-options" "X-Content-Type-Options"
    "X-Content-Type-Options header not found"
    "Add X-Content-Type-Options to prevent MIME sniffing"
    "X-Content-Type-Options header is configured" "X-Content-Type-Options is properly configured"
  let rp := mkHeaderCheck headers "referrer-policy" "Referrer-Policy"
    "Referrer-Policy header not found"
    "Add Referrer-Policy to protect sensitive referral data"
    "Referrer-Policy header is configured" "Referrer-Policy is properly configured"
  let pp := mkHeaderCheck headers "permissions-policy" "Permissions-Policy"
    "Permissions-Policy header not found"
    "Add Permissions-Policy to restrict feature access"
    "Permissions-Policy header is configured" "Permissions-Policy is properly configured"
  let presentHeaders :=
    ([hsts.present, csp.present, xfo.present, xcto.present, rp.present,
      pp.present].filter (fun b => b)).length
  let securityScore := jsMathRound (presentHeaders * 100) 6
  let overallStatus :=
    if securityScore ≥ 80 then "Excellent"
    else if securityScore ≥ 60 then "Good"
    else if securityScore ≥ 40 then "Fair"
    else if securityScore ≥ 20 then "Poor"
    else "Very Poor"
  let recommendations :=
    (if !hsts.present then [hsts.recommendation] else []) ++
    (if !csp.present then [csp.recommendation] else []) ++
    (if !xfo.present then [xfo.recommendation] else []) ++
    (if !xcto.present then [xcto.recommendation] else []) ++
    (if !rp.present then [rp.recommendation] else []) ++
    (if !pp.present then [pp.recommendation] else [])
  { https :=
      { enabled := isHttps
        status := if isHttps then "Secure" else "Insecure"
        description := if isHttps then "Website uses HTTPS encryption"
          else "Website uses unencrypted HTTP" }
    hsts := hsts, csp := csp, xFrameOptions := xfo, xContentTypeOptions := xcto
    referrerPolicy := rp, permissionsPolicy := pp
    summary :=
      { totalHeaders := presentHeaders
        securityScore := securityScore
        overallStatus := overallStatus
        recommendations := recommendations } }

/-- The six tracked security headers, as (lowercase, capitalized) key pairs. -/
def trackedHeaderKeys : List (String × String) :=
  [("strict-transport-security", "Strict-Transport-Security"),
   ("content-security-policy", "Content-Security-Policy"),
   ("x-frame-options", "X-Frame-Options"),
   ("x-content-type-options", "X-Content-Type-Options"),
   ("referrer-policy", "Referrer-Policy"),
   ("permissions-policy", "Permissions-Policy")]

/-- Modelled from the claim's words: the number of tracked headers present in
the header map (present as a key-value pair, under either spelling),
regardless of the value. -/
def trackedPresentInMap (headers : String → Option String) : Nat :=
  (trackedHeaderKeys.filter
    (fun kv => (headers kv.1).isSome || (headers kv.2).isSome)).length

/-- The number of tracked headers whose value is truthy (non-empty), the
presence notion the source actually uses. -/
def trackedTruthyCount (headers : String → Option String) : Nat :=
  (trackedHeaderKeys.filter
    (fun kv => truthyS (headers kv.1) || truthyS (headers kv.2))).length

/-- A header map carrying the CSP header with an empty value: present in the
map, but falsy for the source's checks. -/
def emptyValueHeaders : String → Option String :=
  fun k => if k == "content-security-policy" then some "" else none

/-- C9 counterexample: `summary.totalHeaders` is not the number of tracked
headers present in the map.  With a Content-Security-Policy header whose value
is the empty string, one tracked header is present in the map but the source's
truthiness test counts zero. -/
theorem secHeaders_present_in_map_counterexample :
    (analyzeSecurityHeadersData emptyValueHeaders true).summary.totalHeaders = 0 ∧
      trackedPresentInMap emptyValueHeaders = 1 := by
  exact ⟨rfl, rfl⟩

/-- C9 (amended): for every header map, `summary.totalHeaders` equals the
number of the six tracked headers present with a truthy (non-empty) value,
`summary.securityScore` equals `Math.round(totalHeaders / 6 * 100)`, and
`summary.recommendations` has exactly one entry per missing tracked header
(its length is `6 - totalHeaders`). -/
theorem secHeaders_summary_counts (headers : String → Option String)
    (isHttps : Bool) :
    (analyzeSecurityHeadersData headers isHttps).summary.totalHeaders =
        trackedTruthyCount headers ∧
      (analyzeSecurityHeadersData headers isHttps).summary.securityScore =
        jsMathRound
          ((analyzeSecurityHeadersData headers isHttps).summary.totalHeaders * 100) 6 ∧
      (analyzeSecurityHeadersData headers isHttps).summary.recommendations.length =
        6 - (analyzeSecurityHeadersData headers isHttps).summary.totalHeaders := by
  unfold analyzeSecurityHeadersData mkHeaderCheck trackedTruthyCount trackedHeaderKeys
  simp only [truthyS_jsOrS]
  by_cases h1 : truthyS (headers "strict-transport-security") ||
    truthyS (headers "Strict-Transport-Security") <;>
  by_cases h2 : truthyS (headers "content-security-policy") ||
    truthyS (headers "Content-Security-Policy") <;>
  by_cases h3 : truthyS (headers "x-frame-options") ||
    truthyS (headers "X-Frame-Options") <;>
  by_cases h4 : truthyS (headers "x-content-type-options") ||
    truthyS (headers "X-Content-Type-Options") <;>
  by_cases h5 : truthyS (headers "referrer-policy") ||
    truthyS (headers "Referrer-Policy") <;>
  by_cases h6 : truthyS (headers "permissions-policy") ||
    truthyS (headers "Permissions-Policy") <;>
  simp [h1, h2, h3, h4, h5, h6, jsMathRound]

/-! ## Mobile-friendly heuristic (`analyzeMobileFriendlyWithoutApi`,
lines 1358-1445)

The two regular expressions `/font-size:\s*(1[0-5]px|[0-9]px)/` and
`/padding:\s*0(px)?/` are compiled to explicit scanners over the character
list: JS whitespace classes and griddy alternation are deterministic here
because `\s` and the digit classes are disjoint. -/

/-- JS `\s` on the characters relevant to HTML text. -/
def isWsChar (c : Char) : Bool :=
  c = ' ' || c = '\t' || c = '\n' || c = '\r' || c = '\x0b' || c = '\x0c'

/-- Skips leading `\s*`. -/
def skipWs : List Char → List Char
  | [] => []
  | c :: cs => if isWsChar c then skipWs cs else c :: cs

/-- Matches the alternation `(1[0-5]px|[0-9]px)` at the head of the list. -/
def smallFontNum (l : List Char) : Bool :=
  (match l with
   | '1' :: d :: 'p' :: 'x' :: _ => decide ('0' ≤ d) && decide (d ≤ '5')
   | _ => false) ||
  (match l with
   | d :: 'p' :: 'x' :: _ => d.isDigit
   | _ => false)

/-- Scanner for `/font-size:\s*(1[0-5]px|[0-9]px)/`. -/
def matchSmallFontL : List Char → Bool
  | [] => false
  | c :: cs =>
    (startsWithL "font-size:".data (c :: cs) &&
      smallFontNum (skipWs (List.drop 10 (c :: cs)))) || matchSmallFontL cs

/-- JS `html.match(/font-size:\s*(1[0-5]px|[0-9]px)/)` as a Boolean. -/
def matchSmallFont (s : String) : Bool := matchSmallFontL s.data

/-- Scanner for `/padding:\s*0(px)?/` (the optional `px` group cannot affect
whether a match exists). -/
def matchZeroPaddingL : List Char → Bool
  | [] => false
  | c :: cs =>
    (startsWithL "padding:".data (c :: cs) &&
      (match skipWs (List.drop 8 (c :: cs)) with
       | '0' :: _ => true
       | _ => false)) || matchZeroPaddingL cs

/-- JS `html.match(/padding:\s*0(px)?/)` as a Boolean. -/
def matchZeroPadding (s : String) : Bool := matchZeroPaddingL s.data

/-- The `details` flags of the mobile-friendly analysis. -/
structure MfDetails where
  viewport : Bool
  textSize : Bool
  clickableElements : Bool
  contentWidth : Bool
  plugins : Bool
  responsiveDesign : Bool
  loadingSpeed : Bool
deriving DecidableEq

/-- The analysis object built by `analyzeMobileFriendlyWithoutApi`. -/
structure MfAnalysis where
  verdict : String
  issues : List String
  screenshots : List JVal
  details : MfDetails
  recommendations : List String

/-- The issue list, verdict, details and recommendations of
`analyzeMobileFriendlyWithoutApi` as a function of the six Boolean check
outcomes (in source order: viewport, responsive design, content width, text
size, clickable elements, plugins). -/
def mfFromFlags (dViewport dResponsive dContentWidth dTextSize dClickable dPlugins : Bool) :
    MfAnalysis :=
  let issues :=
    (if dViewport then ["Viewport not set"] else []) ++
    (if dResponsive then ["No responsive design detected"] else []) ++
    (if dContentWidth then ["Content wider than screen"] else []) ++
    (if dTextSize then ["Text too small to read"] else []) ++
    (if dClickable then ["Clickable elements too close"] else []) ++
    (if dPlugins then ["Incompatible plugins detected"] else [])
  let verdict := if issues.length > 0 then "NOT_MOBILE_FRIENDLY" else "MOBILE_FRIENDLY"
  let recommendations :=
    (if dViewport then
      ["Add viewport meta tag: <meta name=\"viewport\" content=\"width=device-width, initial-scale=1.0\">"]
     else []) ++
    (if dResponsive then ["Implement responsive design using CSS media queries"] else []) ++
    (if dContentWidth then ["Use flexible layouts with percentage-based widths"] else []) ++
    (if dTextSize then ["Use larger font sizes (minimum 16px) for mobile readability"] else []) ++
    (if dClickable then ["Ensure clickable elements have adequate spacing (minimum 44px)"] else []) ++
    (if dPlugins then ["Remove or replace Flash and other incompatible plugins"] else [])
  { verdict := verdict
    issues := issues
    screenshots := []
    details :=
      { viewport := dViewport, textSize := dTextSize, clickableElements := dClickable
        contentWidth := dContentWidth, plugins := dPlugins
        responsiveDesign := dResponsive, loadingSpeed := false }
    recommendations := recommendations }

/-- Port of `analyzeMobileFriendlyWithoutApi` (lines 1358-1445) as a pure
function of the fetched page HTML (the fetch itself is modelled at the handler
level): lowercase the HTML and run the six checks in source order. -/
def analyzeMobileFriendlyWithoutApi (rawHtml : String) : MfAnalysis :=
  let html := jsToLower rawHtml
  mfFromFlags
    (!(strContains html "<meta") || !(strContains html "name=\"viewport\"") ||
      !(strContains html "width=device-width"))
    (!(strContains html "@media" || strContains html "max-width" ||
      strContains html "min-width"))
    (strContains html "width=" && strContains html "px")
    (strContains html "font-size:" && matchSmallFont html)
    (strContains html "padding:" && matchZeroPadding html)
    (strContains html "<object" || strContains html ".swf" || strContains html "flash")

/-- Helper: the verdict/issues relation of `mfFromFlags`, by exhausting the
six check outcomes. -/
lemma mfFromFlags_verdict (b1 b2 b3 b4 b5 b6 : Bool) :
    ((mfFromFlags b1 b2 b3 b4 b5 b6).verdict = "NOT_MOBILE_FRIENDLY" ↔
        (mfFromFlags b1 b2 b3 b4 b5 b6).issues ≠ []) ∧
      ((mfFromFlags b1 b2 b3 b4 b5 b6).verdict ≠ "NOT_MOBILE_FRIENDLY" →
        (mfFromFlags b1 b2 b3 b4 b5 b6).verdict = "MOBILE_FRIENDLY" ∧
          (mfFromFlags b1 b2 b3 b4 b5 b6).issues = []) := by
  cases b1 <;> cases b2 <;> cases b3 <;> cases b4 <;> cases b5 <;> cases b6 <;>
    simp [mfFromFlags]

/-- C10: the heuristic's verdict is `NOT_MOBILE_FRIENDLY` exactly when its
issues list is non-empty, and is `MOBILE_FRIENDLY` with an empty issues list
otherwise. -/
theorem mobileFriendly_verdict_iff_issues (rawHtml : String) :
    ((analyzeMobileFriendlyWithoutApi rawHtml).verdict = "NOT_MOBILE_FRIENDLY" ↔
        (analyzeMobileFriendlyWithoutApi rawHtml).issues ≠ []) ∧
      ((analyzeMobileFriendlyWithoutApi rawHtml).verdict ≠ "NOT_MOBILE_FRIENDLY" →
        (analyzeMobileFriendlyWithoutApi rawHtml).verdict = "MOBILE_FRIENDLY" ∧
          (analyzeMobileFriendlyWithoutApi rawHtml).issues = []) :=
  mfFromFlags_verdict _ _ _ _ _ _

/-- A page that trips none of the six checks, witnessing the mobile-friendly
branch of C10. -/
def friendlyHtml : String :=
  "<meta name=\"viewport\" content=\"width=device-width\"> @media"

/-- Witness for C10 at a concrete page: no issues, verdict mobile friendly. -/
theorem mobileFriendly_verdict_iff_issues_witness :
    (analyzeMobileFriendlyWithoutApi friendlyHtml).verdict = "MOBILE_FRIENDLY" ∧
      (analyzeMobileFriendlyWithoutApi friendlyHtml).issues = [] :=
  (mobileFriendly_verdict_iff_issues friendlyHtml).2 (by decide)

/-! ## The remaining handlers as response-body functions

Each handler is a function of the input URL and the outcome of its single
external collaborator (`Except.error msg` models a thrown error reaching the
handler's catch clause).  Success payload fields that are reshaped separately
are passed through as an abstract field list. -/

/-- Port of `analyzeTechStack` (lines 751-798): the `.ok` payload is the
spread of the categorized results. -/
def analyzeTechStack (url : String)
    (outcome : Except String (List (String × JVal))) (ts : String) :
    List (String × JVal) :=
  let u := normalizeUrl url
  match outcome with
  | .ok fields =>
    [("url", .str u), ("success", .bool true), ("timestamp", .str ts)] ++ fields
  | .error m =>
    [("url", .str u), ("success", .bool false), ("error", .bool true),
     ("message", .str ("Failed to analyze tech stack: " ++ m)),
     ("timestamp", .str ts)]

/-- Port of the `analyzeSecurityHeaders` handler (lines 1069-1100): the `.ok`
payload is the spread of the `analyzeSecurityHeadersData` result (modelled in
full above). -/
def analyzeSecurityHeaders (url : String)
    (outcome : Except String (List (String × JVal))) (ts : String) :
    List (String × JVal) :=
  let u := normalizeUrl url
  match outcome with
  | .ok fields =>
    [("url", .str u), ("success", .bool true), ("timestamp", .str ts)] ++ fields
  | .error m =>
    [("url", .str u), ("success", .bool false), ("error", .bool true),
     ("message", .str ("Failed to analyze security headers: " ++ m)),
     ("timestamp", .str ts)]

/-- Port of `analyzeCoreWebVitals` (lines 1321-1355): on success the body also
carries the computed origin; parsing failures of `new URL(url)` and API
failures both surface as the `.error` case. -/
def analyzeCoreWebVitals (url : String)
    (outcome : Except String (String × List (String × JVal))) (ts : String) :
    List (String × JVal) :=
  let u := normalizeUrl url
  match outcome with
  | .ok og =>
    [("url", .str u), ("origin", .str og.1), ("success", .bool true),
     ("timestamp", .str ts)] ++ og.2
  | .error m =>
    [("url", .str u), ("success", .bool false), ("error", .bool true),
     ("message", .str ("Failed to analyze Core Web Vitals: " ++ m)),
     ("timestamp", .str ts)]

/-- External calls the mobile-friendly handler can make: the local page fetch
(`getPageData`) or the remote Google mobile-friendly test API. -/
inductive MobileCall where
  | getPage (url : String)
  | mobileFriendlyTestApi (url : String)
deriving DecidableEq

/-- The body of the page fetched by `getPageData`. -/
structure PageData where
  html : String
  statusCode : Nat

/-- Call trace of `runMobileFriendlyTest` (lines 1448-1584), the remote-API
variant that is kept in the source for reference but never invoked. -/
def runMobileFriendlyTestCalls (url : String) : List MobileCall :=
  [.mobileFriendlyTestApi url]

/-- The JSON fields of the mobile-friendly analysis spread into the success
body. -/
def mfToFields (a : MfAnalysis) : List (String × JVal) :=
  [("verdict", .str a.verdict),
   ("issues", .arr (a.issues.map .str)),
   ("screenshots", .arr a.screenshots),
   ("details", .obj
     [("viewport", .bool a.details.viewport),
      ("textSize", .bool a.details.textSize),
      ("clickableElements", .bool a.details.clickableElements),
      ("contentWidth", .bool a.details.contentWidth),
      ("plugins", .bool a.details.plugins),
      ("responsiveDesign", .bool a.details.responsiveDesign),
      ("loadingSpeed", .bool a.details.loadingSpeed)]),
   ("recommendations", .arr (a.recommendations.map .str))]

/-- Port of the `analyzeMobileFriendly` handler (lines 1287-1318): normalize
the URL, run the local heuristic over the fetched page, and wrap the result;
the second component is the trace of external calls made.  A fetch failure is
rethrown by the heuristic as `Unable to analyze page content` and caught at
the handler boundary. -/
def analyzeMobileFriendly (url : String) (page : Except String PageData)
    (ts : String) : List (String × JVal) × List MobileCall :=
  let u := normalizeUrl url
  let calls := [MobileCall.getPage u]
  match page with
  | .ok p =>
    ([("url", .str u), ("success", .bool true), ("timestamp", .str ts)] ++
      mfToFields (analyzeMobileFriendlyWithoutApi p.html), calls)
  | .error _ =>
    ([("url", .str u), ("success", .bool false), ("error", .bool true),
      ("message", .str ("Failed to analyze mobile-friendliness: " ++
        "Unable to analyze page content")),
      ("timestamp", .str ts)], calls)

/-- Outcome of the HTTPS probe in the controller's `testWebsite` handler. -/
inductive TwOutcome where
  | response (statusCode : Nat)
  | connError (msg : String)
  | timedOut

/-- Port of the controller's `testWebsite` handler (controller lines 19-62):
note the `url.startsWith('http')` normalization and the
`{ url, statusCode, accessible, message }` body shape on all paths. -/
def testWebsite (url : String) (outcome : TwOutcome) : List (String × JVal) :=
  let u := testWebsiteUrl url
  match outcome with
  | .response sc =>
    [("url", .str u), ("statusCode", .num sc),
     ("accessible", .bool (decide (200 ≤ sc) && decide (sc < 400))),
     ("message", .str ("Website responded with status code: " ++ toString sc))]
  | .connError m =>
    [("url", .str u), ("statusCode", .null), ("accessible", .bool false),
     ("message", .str ("Website is not accessible: " ++ m))]
  | .timedOut =>
    [("url", .str u), ("statusCode", .null), ("accessible", .bool false),
     ("message", .str "Website connection timed out after 10 seconds")]

/-! ## External invocation traces (C2)

`lighthouseAttempts` lists the CLI commands `runLighthouseAnalysis` executes
for the analysis itself (the two `--version` probes at lines 34-49 are not
analysis attempts); `cruxRequests` lists the request bodies
`runCoreWebVitalsAnalysis` sends to the CrUX API (lines 1644-1676). -/

/-- The Lighthouse analysis commands executed, in order: the primary command,
then — only when it failed with a timeout or connection-refused error — the
single fallback variant. -/
def lighthouseAttempts (url reportPath : String) (env : LhEnv) : List String :=
  let cmd := lighthouseCommand (quotedUrl url) (quotedReportPath reportPath)
  match env.primaryExec with
  | .ok _ => [cmd]
  | .error msg =>
    if strContains msg "timeout" || strContains msg "ECONNREFUSED" then
      [cmd, altLighthouseCommand (quotedUrl url) (quotedReportPath reportPath)]
    else [cmd]

/-- A CrUX API request body: page-level (`{ url: origin, ... }`) or
origin-level (`{ origin: origin, ... }`). -/
inductive CruxBody where
  | pageQuery (origin : String)
  | originQuery (origin : String)
deriving DecidableEq

/-- Outcome of the first CrUX request: success, an HTTP error with a status
code, or a thrown error with no status. -/
inductive CruxOutcome where
  | success
  | httpError (status : Nat)
  | otherError
deriving DecidableEq

/-- The CrUX API requests issued by `runCoreWebVitalsAnalysis`: first the
page-level query; when it fails with HTTP 404, the origin-level query is
retried once (lines 1666-1676). -/
def cruxRequests (origin : String) (firstResult : CruxOutcome) : List CruxBody :=
  match firstResult with
  | .success => [.pageQuery origin]
  | .httpError status =>
    if status = 404 then [.pageQuery origin, .originQuery origin]
    else [.pageQuery origin]
  | .otherError => [.pageQuery origin]

/-! ## C1: uniform failure bodies -/

/-- A failure body contains the normalized url, `error: true`, and a string
message. -/
def FailureBodyOk (u : String) (b : List (String × JVal)) : Prop :=
  List.lookup "url" b = some (JVal.str u) ∧
    List.lookup "error" b = some (JVal.bool true) ∧
    ∃ m, List.lookup "message" b = some (JVal.str m)

/-- Every error outcome of the Lighthouse handler is a well-formed failure
body. -/
def LhFailuresOk (u : String) : LhResult → Prop
  | .errorBody b => FailureBodyOk u b
  | .ok _ => True

/-- Helper: an early interstitial result is a well-formed failure body. -/
lemma lhInterstitial_failures (u : String) (r : LhReport) (res : LhResult)
    (h : lhInterstitial u r = some res) : LhFailuresOk u res := by
  unfold lhInterstitial at h
  repeat' split at h
  all_goals (try cases h)
  all_goals simp only [LhFailuresOk, FailureBodyOk, lhCatch, lhErrorBody]
  all_goals exact ⟨rfl, rfl, _, rfl⟩

/-- Helper: every error body produced anywhere in `runLighthouseModel`
contains the normalized url, `error: true` and a message. -/
lemma runLighthouse_failures_ok (url : String) (env : LhEnv) :
    LhFailuresOk (normalizeUrl url) (runLighthouseModel url env).1 := by
  unfold runLighthouseModel lhRunParse lhAfterParse
  dsimp only
  repeat' split
  all_goals first
    | trivial
    | exact ⟨rfl, rfl, _, rfl⟩
    | (apply lhInterstitial_failures <;> assumption)

/-- C1 counterexample: the `test-website` handler's failure body does not
contain an `error: true` field (it reports `accessible: false` instead), so
not every handler converts failures into a `{ url, error: true, message }`
body. -/
theorem testWebsite_failure_body_counterexample :
    List.lookup "error"
        (testWebsite "example.com" (.connError "connect ECONNREFUSED")) = none ∧
      List.lookup "accessible"
        (testWebsite "example.com" (.connError "connect ECONNREFUSED")) =
        some (JVal.bool false) :=
  ⟨rfl, rfl⟩

/-- C1 (amended): every failure of the five analysis handlers is caught at
the handler boundary and converted into a JSON body containing the (possibly
normalized) url, `error: true`, and a message — never a propagated exception;
the `test-website` handler likewise catches every failure but returns
`{ url, statusCode: null, accessible: false, message }`, without an `error`
field. -/
theorem handlers_failure_body_uniform (url m ts : String) (env : LhEnv) :
    LhFailuresOk (normalizeUrl url) (runLighthouseModel url env).1 ∧
      FailureBodyOk (normalizeUrl url) (analyzeTechStack url (.error m) ts) ∧
      FailureBodyOk (normalizeUrl url) (analyzeSecurityHeaders url (.error m) ts) ∧
      FailureBodyOk (normalizeUrl url) ((analyzeMobileFriendly url (.error m) ts).1) ∧
      FailureBodyOk (normalizeUrl url) (analyzeCoreWebVitals url (.error m) ts) ∧
      List.lookup "error" (testWebsite url (.connError m)) = none ∧
      List.lookup "accessible" (testWebsite url (.connError m)) =
        some (JVal.bool false) ∧
      List.lookup "error" (testWebsite url .timedOut) = none ∧
      List.lookup "accessible" (testWebsite url .timedOut) =
        some (JVal.bool false) ∧
      (∃ s, List.lookup "message" (testWebsite url (.connError m)) =
        some (JVal.str s)) :=
  ⟨runLighthouse_failures_ok url env,
   ⟨rfl, rfl, _, rfl⟩, ⟨rfl, rfl, _, rfl⟩, ⟨rfl, rfl, _, rfl⟩, ⟨rfl, rfl, _, rfl⟩,
   rfl, rfl, rfl, rfl, ⟨_, rfl⟩⟩

/-! ## C2: retries and fallbacks -/

/-- C2 counterexample: after the page-level CrUX query fails with HTTP 404,
the handler re-invokes the CrUX API with an origin-level query, so an external
collaborator other than the Lighthouse CLI is re-invoked after a failure. -/
theorem crux_refetch_after_404_counterexample :
    (cruxRequests "https://example.com" (.httpError 404)).length = 2 ∧
      cruxRequests "https://example.com" (.httpError 404) =
        [CruxBody.pageQuery "https://example.com",
         CruxBody.originQuery "https://example.com"] :=
  ⟨rfl, rfl⟩

/-- C2 (amended): the Lighthouse CLI is invoked at most twice — the second
invocation being exactly the single fallback command variant, issued only
when the primary invocation failed with a timeout or connection-refused
error — and the CrUX API is invoked at most twice, the second request being
exactly the origin-level fallback query, issued only after an HTTP 404; no
other re-invocation happens. -/
theorem no_retries_single_fallbacks (url p origin : String) (env : LhEnv)
    (out : CruxOutcome) :
    (lighthouseAttempts url p env).length ≤ 2 ∧
      ((lighthouseAttempts url p env).drop 1 = [] ∨
        (lighthouseAttempts url p env).drop 1 =
          [altLighthouseCommand (quotedUrl url) (quotedReportPath p)]) ∧
      ((lighthouseAttempts url p env).length = 2 →
        ∃ msg, env.primaryExec = Except.error msg ∧
          (strContains msg "timeout" || strContains msg "ECONNREFUSED") = true) ∧
      (cruxRequests origin out).length ≤ 2 ∧
      ((cruxRequests origin out).drop 1 = [] ∨
        (cruxRequests origin out).drop 1 = [CruxBody.originQuery origin]) ∧
      ((cruxRequests origin out).length = 2 → out = CruxOutcome.httpError 404) := by
  obtain ⟨pe, fp, ae, fa, pr, un⟩ := env
  refine ⟨?_, ?_, ?_, ?_, ?_, ?_⟩
  · rcases pe with msg | _
    · unfold lighthouseAttempts
      dsimp only
      split <;> simp
    · simp [lighthouseAttempts]
  · rcases pe with msg | _
    · unfold lighthouseAttempts
      dsimp only
      split
      · exact Or.inr rfl
      · exact Or.inl rfl
    · exact Or.inl rfl
  · rcases pe with msg | _
    · unfold lighthouseAttempts
      dsimp only
      split
      · rename_i hcond
        refine fun _ => ⟨msg, rfl, ?_⟩
        simpa using hcond
      · intro hlen; simp at hlen
    · intro hlen; simp [lighthouseAttempts] at hlen
  · rcases out with _ | st | _
    · simp [cruxRequests]
    · unfold cruxRequests
      dsimp only
      split <;> simp
    · simp [cruxRequests]
  · rcases out with _ | st | _
    · exact Or.inl rfl
    · unfold cruxRequests
      dsimp only
      split
      · exact Or.inr rfl
      · exact Or.inl rfl
    · exact Or.inl rfl
  · rcases out with _ | st | _
    · intro h2; simp [cruxRequests] at h2
    · unfold cruxRequests
      dsimp only
      split
      · rename_i hst
        exact fun _ => by rw [hst]
      · intro h2; simp at h2
    · intro h2; simp [cruxRequests] at h2

/-- An environment whose primary Lighthouse execution fails with a timeout,
triggering the single fallback attempt. -/
def timeoutEnv : LhEnv :=
  { primaryExec := .error "Command failed: timeout of 60000ms exceeded"
    fileAfterPrimary := false
    altExec := .ok ()
    fileAfterAlt := true
    parse := .ok plainReport
    unlinkOk := true }

/-- Witness for the amended C2 theorem: with a timed-out primary attempt, two
commands are attempted and the hypothesis of the fallback clause holds. -/
theorem no_retries_single_fallbacks_witness :
    ∃ msg, timeoutEnv.primaryExec = Except.error msg ∧
      (strContains msg "timeout" || strContains msg "ECONNREFUSED") = true :=
  (no_retries_single_fallbacks "https://example.com" "reports/lighthouse-report-1.json"
    "https://example.com" timeoutEnv (.httpError 404)).2.2.1 (by decide)

/-! ## C3: report file cleanup -/

/-- Helper: the post-parse validation never changes the report-file state. -/
lemma lhAfterParse_snd (u : String) (r : LhReport) (b : Bool) :
    (lhAfterParse u r b).2 = b := by
  unfold lhAfterParse
  repeat' split
  all_goals rfl

/-- An environment in which the Lighthouse CLI succeeds and creates the
report file, but the report is malformed JSON. -/
def leakEnv : LhEnv :=
  { primaryExec := .ok ()
    fileAfterPrimary := true
    altExec := .ok ()
    fileAfterAlt := false
    parse := .error "Unexpected token < in JSON at position 0"
    unlinkOk := true }

/-- C3 counterexample: when the created report file fails to parse, the
handler returns the failure body but the report file is NOT deleted — the
cleanup at lines 121-126 sits after the `JSON.parse` call, so the parse
exception skips it. -/
theorem report_file_leak_on_parse_failure :
    (runLighthouseModel "https://example.com" leakEnv).2 = true ∧
      (runLighthouseModel "https://example.com" leakEnv).1 =
        LhResult.errorBody (lhErrorBody "https://example.com"
          "Failed to analyze website: Unexpected token < in JSON at position 0") :=
  ⟨rfl, rfl⟩

/-- C3 (amended): the report file is deleted before the handler returns on
the success path and on every failure path that occurs after the report file
is successfully parsed (assuming the unlink call itself succeeds); on failure
paths where command execution throws or the report fails to parse, a created
report file is not deleted. -/
theorem report_file_cleanup_on_parse_success (url : String) (env : LhEnv)
    (r : LhReport) (hunlink : env.unlinkOk = true) (hparse : env.parse = .ok r)
    (hpath : (env.primaryExec = Except.ok () ∧ env.fileAfterPrimary = true) ∨
      ((∃ m, env.primaryExec = Except.error m ∧
          (strContains m "timeout" || strContains m "ECONNREFUSED") = true) ∧
        env.altExec = Except.ok () ∧ env.fileAfterAlt = true)) :
    (runLighthouseModel url env).2 = false := by
  rcases hpath with ⟨hp, hf⟩ | ⟨⟨m, hp, hm⟩, ha, hfa⟩
  · simp [runLighthouseModel, lhRunParse, hp, hf, hparse, hunlink, lhAfterParse_snd]
  · simp [runLighthouseModel, lhRunParse, hp, hm, ha, hfa, hparse, hunlink,
      lhAfterParse_snd]

/-- An environment for the cleanup witness: everything succeeds. -/
def cleanEnv : LhEnv :=
  { primaryExec := .ok ()
    fileAfterPrimary := true
    altExec := .ok ()
    fileAfterAlt := true
    parse := .ok plainReport
    unlinkOk := true }

/-- Witness for the amended C3 theorem at a concrete environment. -/
theorem report_file_cleanup_on_parse_success_witness :
    (runLighthouseModel "https://example.com" cleanEnv).2 = false :=
  report_file_cleanup_on_parse_success "https://example.com" cleanEnv plainReport
    rfl rfl (Or.inl ⟨rfl, rfl⟩)

/-! ## C5: the configured timeout versus the CLI flag -/

/-- An environment configuring `LIGHTHOUSE_TIMEOUT=12345`. -/
def timeout12345Env : String → Option String :=
  fun k => if k == "LIGHTHOUSE_TIMEOUT" then some "12345" else none

set_option maxRecDepth 8000 in
/-- C5 counterexample: with `LIGHTHOUSE_TIMEOUT=12345` the configuration
carries timeout 12345, but the CLI invocation's timeout flag is still the
hard-coded `--timeout=60000` — the configured value never reaches the
command line. -/
theorem lighthouse_timeout_config_unused_counterexample :
    (configuration timeout12345Env).lighthouse.timeout = some 12345 ∧
      strContains (lighthouseCommand (quotedUrl "https://example.com")
        (quotedReportPath "reports/lighthouse-report-1.json"))
        "--timeout=12345" = false ∧
      strContains (lighthouseCommand (quotedUrl "https://example.com")
        (quotedReportPath "reports/lighthouse-report-1.json"))
        "--timeout=60000" = true :=
  ⟨rfl, by decide, by decide⟩

/-- C5 (amended): the configuration's default timeout is 60000, and the
Lighthouse invocation always passes the hard-coded `--timeout=60000` (the
fallback variant `--timeout=30000`) for every url and report path,
independently of the configured `LIGHTHOUSE_TIMEOUT` value. -/
theorem lighthouse_timeout_hardcoded :
    (configuration (fun _ => none)).lighthouse.timeout = some 60000 ∧
      (∀ qUrl qPath, strContains (lighthouseCommand qUrl qPath)
        "--timeout=60000" = true) ∧
      (∀ qUrl qPath, strContains (altLighthouseCommand qUrl qPath)
        "--timeout=30000" = true) := by
  refine ⟨rfl, fun qUrl qPath => ?_, fun qUrl qPath => ?_⟩
  · exact strContains_append_right _ (by decide)
  · exact strContains_append_right _ (by decide)

/-! ## C6: URL normalization across handlers -/

/-- C6 counterexample: the `test-website` handler does not prepend
`https://` to an input that merely starts with `http` — `httpfoo.com` starts
with neither `http://` nor `https://`, yet it is returned unchanged. -/
theorem testWebsite_normalization_counterexample :
    jsStartsWith "httpfoo.com" "http://" = false ∧
      jsStartsWith "httpfoo.com" "https://" = false ∧
      List.lookup "url" (testWebsite "httpfoo.com" (.connError "boom")) =
        some (JVal.str "httpfoo.com") :=
  ⟨rfl, rfl, rfl⟩

/-- C6 (amended): the five service handlers prepend `https://` exactly when
the input starts with neither `http://` nor `https://`, and return the
normalized url as the `url` field of every response body; the `test-website`
handler instead prepends `https://` only when the input does not start with
the bare prefix `http`. -/
theorem url_normalization_handlers (url ts : String)
    (tech sec : Except String (List (String × JVal)))
    (cwv : Except String (String × List (String × JVal)))
    (page : Except String PageData) (tw : TwOutcome) :
    (jsStartsWith url "http://" = false → jsStartsWith url "https://" = false →
      normalizeUrl url = "https://" ++ url) ∧
      ((jsStartsWith url "http://" = true ∨ jsStartsWith url "https://" = true) →
        normalizeUrl url = url) ∧
      List.lookup "url" (analyzeTechStack url tech ts) =
        some (JVal.str (normalizeUrl url)) ∧
      List.lookup "url" (analyzeSecurityHeaders url sec ts) =
        some (JVal.str (normalizeUrl url)) ∧
      List.lookup "url" ((analyzeMobileFriendly url page ts).1) =
        some (JVal.str (normalizeUrl url)) ∧
      List.lookup "url" (analyzeCoreWebVitals url cwv ts) =
        some (JVal.str (normalizeUrl url)) ∧
      (∀ env b, (runLighthouseModel url env).1 = LhResult.errorBody b →
        List.lookup "url" b = some (JVal.str (normalizeUrl url))) ∧
      (jsStartsWith url "http" = false →
        List.lookup "url" (testWebsite url tw) =
          some (JVal.str ("https://" ++ url))) ∧
      (jsStartsWith url "http" = true →
        List.lookup "url" (testWebsite url tw) = some (JVal.str url)) := by
  refine ⟨?_, ?_, ?_, ?_, ?_, ?_, ?_, ?_, ?_⟩
  · intro h1 h2
    simp [normalizeUrl, h1, h2]
  · intro h
    rcases h with h | h <;> simp [normalizeUrl, h]
  · cases tech <;> rfl
  · cases sec <;> rfl
  · cases page <;> rfl
  · cases cwv <;> rfl
  · intro env b hb
    have h := runLighthouse_failures_ok url env
    rw [hb] at h
    exact h.1
  · intro h
    cases tw <;> simp [testWebsite, testWebsiteUrl, h]
  · intro h
    cases tw <;> simp [testWebsite, testWebsiteUrl, h]

/-- Witness for the amended C6 theorem at a concrete url without a scheme. -/
theorem url_normalization_handlers_witness :
    normalizeUrl "example.com" = "https://example.com" ∧
      List.lookup "url" (testWebsite "example.com" (.connError "x")) =
        some (JVal.str "https://example.com") := by
  have h := url_normalization_handlers "example.com" "t" (.error "x") (.error "x")
    (.error "x") (.error "x") (.connError "x")
  exact ⟨h.1 (by decide) (by decide), h.2.2.2.2.2.2.2.1 (by decide)⟩

/-! ## C8: the mobile-friendly handler uses the local heuristic only -/

/-- C8: for every input url, the mobile-friendly handler's external-call trace
is exactly one local page fetch on the normalized url — it invokes the local
heuristic and never calls the remote mobile-usability API. -/
theorem mobileFriendly_uses_local_heuristic (url ts : String)
    (page : Except String PageData) :
    (analyzeMobileFriendly url page ts).2 =
        [MobileCall.getPage (normalizeUrl url)] ∧
      ((analyzeMobileFriendly url page ts).2.countP
        (fun c => match c with
          | MobileCall.mobileFriendlyTestApi _ => true
          | _ => false)) = 0 := by
  cases page <;> exact ⟨rfl, rfl⟩

end Websense
